import Mathlib

/-!
Verification of the sqliteview table-browsing / in-place-edit core
(`src/src/db.c`, `src/include/db.h`, `src/include/context.h`).

The C code is shallowly embedded: the shared application context
`context_td` becomes a Lean structure, the SQLite handle becomes an
optional connection value carrying the database content, and each
`db_*` function becomes a pure Lean function returning the SQLite
result code together with the updated context.  Calls into the SQLite
engine (`sqlite3_open`, `sqlite3_prepare_v2`, `sqlite3_bind_text`,
`sqlite3_step`) are modelled by their documented semantics for the
particular statements this program builds:

  * plain `sqlite3_open` opens in READWRITE|CREATE mode: a missing
    file is created as a fresh empty database when the location is
    writable; on failure a non-null error handle is still stored in
    `*ppDb` (the repository's own `ui.c` relies on this, reading
    `sqlite3_errmsg(s->db)` and calling `db_close` after a failed
    `db_open`);
  * `prepare` of a statement naming an unknown table or column fails;
  * SQL `LIKE` matching is case-insensitive for ASCII and treats `_`
    as a one-character wildcard and `%` as an any-string wildcard;
  * `ORDER BY name` sorts by the default BINARY collation, which on
    the embedded strings coincides with lexicographic string order;
  * text bound via `sqlite3_bind_text` reaches the engine only as a
    parameter value, never as statement text.

C allocation failures (`strdup`, `malloc`, `calloc`) are driven by an
explicit oracle so that the error paths of the source are part of the
model.  An out-of-bounds C array access is modelled as the distinct
outcome `CResult.ub` (undefined behavior).
-/

set_option maxHeartbeats 1000000

namespace SqliteView

/-! ## SQLite result codes used by the sources -/

def SQLITE_OK : Int := 0
def SQLITE_ERROR : Int := 1
def SQLITE_NOMEM : Int := 7
def SQLITE_CANTOPEN : Int := 14
def SQLITE_MISUSE : Int := 21
def SQLITE_NOTADB : Int := 26
def SQLITE_DONE : Int := 101

/-- `#define SQL_QUERY_MAX_LIMIT (100)` from `src/include/db.h`. -/
def SQL_QUERY_MAX_LIMIT : Int := 100

/-! ## Data model -/

/-- One stored row: the engine-supplied rowid plus the schema-column
values (all values are text, matching the program's uniform use of
`sqlite3_column_text`). -/
structure Row where
  rowid : Int
  vals : List String
deriving Repr, DecidableEq

/-- One user table: name, schema column names (without the implicit
rowid), and stored rows. -/
structure Table where
  name : String
  colnames : List String
  rows : List Row
deriving Repr, DecidableEq

/-- Content of one database file: its catalog of user tables (entries
of kind "table"). -/
structure Database where
  tables : List Table
deriving Repr, DecidableEq

/-- A connection handle as stored in `context_td.db`.  `live` is a
successfully opened database; `notadb` is a lazily opened handle on a
file that is not a database (plain `sqlite3_open` succeeds, later
`prepare` fails with `SQLITE_NOTADB`); `errorHandle` is the non-null
object `sqlite3_open` stores on failure. -/
inductive Conn where
  | live (d : Database)
  | notadb
  | errorHandle
deriving Repr, DecidableEq

inductive FileContent where
  | validDb (d : Database)
  | notADb
deriving Repr, DecidableEq

/-- The file system seen by `sqlite3_open`: path-to-content map plus
whether new files can be created at the location. -/
structure FileSys where
  files : List (String × FileContent)
  writable : Bool
deriving Repr, DecidableEq

/-- The GTK rows view (`s->rows_view`): its tree-view columns and the
attached list-store model, `none` when `gtk_tree_view_set_model(tv,
NULL)` has cleared it. -/
structure RowsView where
  columns : List String
  model : Option (List (List String))
deriving Repr, DecidableEq

/-- The shared application context (`context_td` in
`src/include/context.h`).  Pointer fields become `Option`s; `none` is
a NULL pointer. -/
structure context_td where
  db : Option Conn
  tables_store : Option (List String)
  rows_view : Option RowsView
  current_ncols : Int
  current_colnames : Option (List (Option String))
  current_tablename : Option String
deriving Repr, DecidableEq

/-- Allocation oracle: one flag per allocation site of `db.c`
(`strdup(table)` in `db_populate_rows`; `strdup`/`malloc` in
`s_make_select_rowid_all`; `calloc` for the column-name array;
`malloc` for a long UPDATE statement). -/
structure AllocOracle where
  tablename_ok : Bool := true
  sel_strdup_ok : Bool := true
  sel_malloc_ok : Bool := true
  colnames_ok : Bool := true
  upd_malloc_ok : Bool := true
deriving Repr, DecidableEq

/-- Outcome of running a C function: a value, or undefined behavior
(out-of-bounds array access). -/
inductive CResult (α : Type) where
  | ok (val : α)
  | ub
deriving Repr, DecidableEq

/-- Engine events observable across the SQLite API boundary. -/
inductive Event where
  | prepared (sql : String)
  | boundText (idx : Int) (val : String)
  | stepped (rc : Int)
deriving Repr, DecidableEq

/-! ## SQL LIKE semantics (for `name NOT LIKE 'sqlite_%'`) -/

/-- ASCII lowercasing, the case folding SQLite's default `LIKE` uses. -/
def lowerAscii (c : Char) : Char :=
  if 'A' ≤ c ∧ c ≤ 'Z' then Char.ofNat (c.toNat + 32) else c

/-- SQL `LIKE` matching on character lists, structurally recursive on
the pattern: `%` matches any number of characters (the rest of the
pattern must match some suffix of the text, enumerated by `tails`),
`_` matches exactly one character, and any other pattern character
matches one text character case-insensitively (ASCII). -/
def likeChars : List Char → List Char → Bool
  | [], t => t.isEmpty
  | p :: ps, t =>
    if p = '%' then t.tails.any (fun ts => likeChars ps ts)
    else
      match t with
      | [] => false
      | t0 :: ts =>
        if p = '_' then likeChars ps ts
        else (lowerAscii p == lowerAscii t0) && likeChars ps ts

/-- SQL `LIKE`: does `text` match `pat`? -/
def sqlLike (pat text : String) : Bool :=
  likeChars pat.data text.data

/-! ## Engine-side helpers -/

def FileSys.lookupFile (fs : FileSys) (path : String) : Option FileContent :=
  (fs.files.find? (fun pc => pc.1 == path)).map Prod.snd

def emptyDb : Database := ⟨[]⟩

/-- Plain `sqlite3_open` (READWRITE | CREATE): an existing valid
database opens live; a non-database file also opens (lazily — the
error surfaces at the first `prepare`); a missing file is created
empty when the location is writable, otherwise the open fails and a
non-null error handle is stored. -/
def sqlite3_open_model (fs : FileSys) (path : String) :
    Int × Option Conn × FileSys :=
  match fs.lookupFile path with
  | some (.validDb d) => (SQLITE_OK, some (.live d), fs)
  | some .notADb => (SQLITE_OK, some .notadb, fs)
  | none =>
    if fs.writable then
      (SQLITE_OK, some (.live emptyDb),
        { fs with files := (path, .validDb emptyDb) :: fs.files })
    else
      (SQLITE_CANTOPEN, some .errorHandle, fs)

def Database.lookupTable (d : Database) (tname : String) : Option Table :=
  d.tables.find? (fun t => t.name == tname)

/-- Effect of stepping `UPDATE "t" SET "c" = ?1 WHERE rowid = ?2;` on
one table: every row whose rowid equals the bound text (under SQLite's
text-to-integer affinity conversion) gets column `c` set. -/
def Table.applyUpdate (t : Table) (colname ridText newText : String) : Table :=
  match t.colnames.findIdx? (fun c => c == colname) with
  | none => t
  | some i =>
    { t with rows := t.rows.map (fun r =>
        if ridText.toInt? = some r.rowid then
          { r with vals := r.vals.set i newText }
        else r) }

def Database.updateTable (d : Database) (tname colname ridText newText : String) :
    Database :=
  { d with tables := d.tables.map (fun t =>
      if t.name == tname then t.applyUpdate colname ridText newText else t) }

/-- Result of the catalog query `SELECT name FROM sqlite_master WHERE
type='table' AND name NOT LIKE 'sqlite_%' ORDER BY name;`: the names
of the catalog's "table" entries not matching the LIKE pattern,
sorted ascending by the BINARY collation (string order). -/
def tableListQuery (d : Database) : List String :=
  List.insertionSort (· ≤ ·)
    ((d.tables.map Table.name).filter (fun n => !(sqlLike "sqlite_%" n)))

/-! ## The db.c functions -/

/-- `s_make_select_rowid_all` (db.c:30-53): formats
`SELECT rowid, * FROM "<table>" LIMIT <SQL_QUERY_MAX_LIMIT>;`. -/
def selectRowidAllText (table : String) : String :=
  "SELECT rowid, * FROM \"" ++ table ++ "\" LIMIT " ++
    toString SQL_QUERY_MAX_LIMIT ++ ";"

/-- `s_make_select_rowid_all`: `snprintf` into a 256-byte stack
buffer; when the formatted text does not fit, a heap buffer of the
exact needed size is filled instead; either way the full untruncated
statement (or NULL on allocation failure) is returned. -/
def s_make_select_rowid_all (a : AllocOracle) (table : String) : Option String :=
  let full := selectRowidAllText table
  let needed := full.utf8ByteSize
  if needed ≥ 256 then
    if a.sel_malloc_ok then some full else none
  else
    if a.sel_strdup_ok then some full else none

/-- `db_open` (db.c:85-96): close any prior connection, then
`sqlite3_open(filename, &s->db)` — the engine's stored handle (live,
lazy, or error object) lands in `s->db` and the engine's code is
returned. -/
def db_open (s? : Option context_td) (fs : FileSys) (filename : String) :
    Int × Option context_td × FileSys :=
  match s? with
  | none => (SQLITE_MISUSE, none, fs)
  | some s =>
    let s1 := if s.db.isSome then { s with db := none } else s
    let r := sqlite3_open_model fs filename
    (r.1, some { s1 with db := r.2.1 }, r.2.2)

/-- `db_close` (db.c:100-110): close the connection if present and
null the handle. -/
def db_close (s? : Option context_td) : Option context_td :=
  match s? with
  | none => none
  | some s => if s.db.isSome then some { s with db := none } else some s

/-- `db_fill_table_list` (db.c:114-142): guard, prepare the catalog
query, clear the store and append each resulting name. -/
def db_fill_table_list (s? : Option context_td) : Int × Option context_td :=
  match s? with
  | none => (SQLITE_MISUSE, none)
  | some s =>
    if s.db.isNone || s.tables_store.isNone then (SQLITE_MISUSE, some s)
    else
      match s.db with
      | some (.live d) =>
        (SQLITE_OK, some { s with tables_store := some (tableListQuery d) })
      | some .notadb => (SQLITE_NOTADB, some s)
      | some .errorHandle => (SQLITE_ERROR, some s)
      | none => (SQLITE_MISUSE, some s)

/-- `db_free_columns` (db.c:146-166) on a non-null context: frees the
column-name array (when present), the table name, and zeroes the
column count. -/
def db_free_columns_c (s : context_td) : context_td :=
  if s.current_colnames.isNone then
    { s with current_tablename := none, current_ncols := 0 }
  else
    { s with current_colnames := none, current_ncols := 0,
             current_tablename := none }

/-- `db_free_columns` including the NULL-context guard. -/
def db_free_columns (s? : Option context_td) : Option context_td :=
  s?.map db_free_columns_c

/-- `db_populate_rows` (db.c:171-251): guards; discard prior
current-table state; record the new table name; clear the rows view;
build and prepare the bounded SELECT; capture column names; fill the
model with up to `SQL_QUERY_MAX_LIMIT` rows. -/
def db_populate_rows (s? : Option context_td) (table? : Option String)
    (a : AllocOracle) : Int × Option context_td :=
  match s? with
  | none => (SQLITE_MISUSE, none)
  | some s =>
    if s.db.isNone || s.rows_view.isNone then (SQLITE_MISUSE, some s)
    else match table? with
    | none => (SQLITE_MISUSE, some s)
    | some table =>
      let s1 := db_free_columns_c s
      let s2 := { s1 with current_tablename :=
                    if a.tablename_ok then some table else none }
      let s3 := { s2 with rows_view := some { columns := [], model := none } }
      match s_make_select_rowid_all a table with
      | none => (SQLITE_NOMEM, some s3)
      | some _sql =>
        match s3.db with
        | some (.live d) =>
          match d.lookupTable table with
          | none => (SQLITE_ERROR, some s3)
          | some t =>
            let ncol : Int := 1 + t.colnames.length
            let s4 := { s3 with current_ncols := ncol }
            if !a.colnames_ok then (SQLITE_NOMEM, some s4)
            else
              let names := "rowid" :: t.colnames
              let rv5 : RowsView := { columns := names, model := none }
              let s5 := { s4 with current_colnames := some (names.map some),
                                  rows_view := some rv5 }
              let rowsOut := (t.rows.take SQL_QUERY_MAX_LIMIT.toNat).map
                  (fun r => toString r.rowid :: r.vals)
              let rvOut : RowsView := { columns := names, model := some rowsOut }
              (SQLITE_OK, some { s5 with rows_view := some rvOut })
        | some .notadb => (SQLITE_NOTADB, some s3)
        | some .errorHandle => (SQLITE_ERROR, some s3)
        | none => (SQLITE_MISUSE, some s3)

/-- SQL text built by `db_apply_update_cell` (db.c:271-273). -/
def updateSqlText (tablename colname : String) : String :=
  "UPDATE \"" ++ tablename ++ "\" SET \"" ++ colname ++
    "\" = ? WHERE rowid = ?;"

/-- `db_apply_update_cell` (db.c:256-312): guards; colidx 0 is a
no-op; `s->current_colnames[colidx]` is read with NO bounds check, so
an index outside the allocated array is undefined behavior; otherwise
the UPDATE is formatted (heap path for long statements), prepared,
the two text parameters are bound, and the statement is stepped. -/
def db_apply_update_cell (s? : Option context_td) (colidx : Int)
    (rowid_text new_text : String) (a : AllocOracle) :
    CResult (Int × Option context_td × List Event) :=
  match s? with
  | none => .ok (SQLITE_MISUSE, none, [])
  | some s =>
    match s.db, s.current_tablename, s.current_colnames with
    | some conn, some tablename, some colarr =>
      if colidx == 0 then .ok (SQLITE_OK, some s, [])
      else if colidx < 0 ∨ (colarr.length : Int) ≤ colidx then .ub
      else
        match colarr.get? colidx.toNat with
        | none => .ub
        | some none => .ok (SQLITE_MISUSE, some s, [])
        | some (some colname) =>
          let sqlStr := updateSqlText tablename colname
          let needed := sqlStr.utf8ByteSize
          if needed ≥ 512 ∧ !a.upd_malloc_ok then .ok (SQLITE_NOMEM, some s, [])
          else
            match conn with
            | .live d =>
              match d.lookupTable tablename with
              | none => .ok (SQLITE_ERROR, some s, [.prepared sqlStr])
              | some t =>
                if t.colnames.contains colname then
                  let d2 := d.updateTable tablename colname rowid_text new_text
                  .ok (SQLITE_OK, some { s with db := some (.live d2) },
                    [.prepared sqlStr, .boundText 1 new_text,
                     .boundText 2 rowid_text, .stepped SQLITE_DONE])
                else .ok (SQLITE_ERROR, some s, [.prepared sqlStr])
            | .notadb => .ok (SQLITE_NOTADB, some s, [.prepared sqlStr])
            | .errorHandle => .ok (SQLITE_ERROR, some s, [.prepared sqlStr])
    | _, _, _ => .ok (SQLITE_MISUSE, some s, [])

/-- The statement texts passed to `sqlite3_prepare_v2` during one run
of `db_apply_update_cell`. -/
def preparedSqls : CResult (Int × Option context_td × List Event) → List String
  | .ub => []
  | .ok (_, _, evs) => evs.filterMap (fun e => match e with
      | .prepared q => some q
      | _ => none)

/-! ## Concrete fixtures (the spec's end-to-end example database) -/

/-- Table `t(a,b)` with rows `(1,'x','y')` and `(2,'p','q')`. -/
def tAB : Table := ⟨"t", ["a", "b"], [⟨1, ["x", "y"]⟩, ⟨2, ["p", "q"]⟩]⟩

def dbT : Database := ⟨[tAB]⟩

/-- A session with a live connection to `dbT` and current-table state
from a successful load of `t`. -/
def ctxLive : context_td :=
  { db := some (.live dbT), tables_store := some [],
    rows_view := some ⟨[], none⟩, current_ncols := 3,
    current_colnames := some [some "rowid", some "a", some "b"],
    current_tablename := some "t" }

/-- A zero-initialized session (as `main.c` produces via `memset`). -/
def ctxNoDb : context_td :=
  { db := none, tables_store := none, rows_view := none,
    current_ncols := 0, current_colnames := none, current_tablename := none }

/-- An empty, writable location: no file exists at any path. -/
def fsRW : FileSys := ⟨[], true⟩

/-- An empty, read-only location: opens cannot create files. -/
def fsRO : FileSys := ⟨[], false⟩

/-- A database whose only table is named `sqlitez`: a name SQLite
permits (its reserved-name check compares the first seven characters
against `sqlite_`), not bearing the `sqlite_` prefix, yet matched by
the pattern `sqlite_%` because `_` is a one-character wildcard. -/
def dbSz : Database := ⟨[⟨"sqlitez", ["a"], []⟩]⟩

def ctxSz : context_td :=
  { db := some (.live dbSz), tables_store := some [],
    rows_view := some ⟨[], none⟩, current_ncols := 0,
    current_colnames := none, current_tablename := none }

/-- A database with tables `b`, `a` and the internal `sqlite_seq`. -/
def dbW : Database := ⟨[⟨"b", [], []⟩, ⟨"a", [], []⟩, ⟨"sqlite_seq", [], []⟩]⟩

def ctxW : context_td :=
  { db := some (.live dbW), tables_store := some [],
    rows_view := some ⟨[], none⟩, current_ncols := 0,
    current_colnames := none, current_tablename := none }

/-- All allocations succeed. -/
def allocAll : AllocOracle := {}

/-- The `calloc` of the column-name array fails. -/
def aNoCalloc : AllocOracle := { colnames_ok := false }

/-! ## Helper lemmas -/

theorem db_close_of_db_none (c : context_td) (h : c.db = none) :
    db_close (some c) = some c := by
  simp [db_close, h]

theorem db_fill_table_list_misuse_of_db_none (c : context_td) (h : c.db = none) :
    (db_fill_table_list (some c)).1 = SQLITE_MISUSE := by
  simp [db_fill_table_list, h]

theorem db_populate_rows_misuse_of_db_none (c : context_td) (h : c.db = none)
    (t? : Option String) (a : AllocOracle) :
    (db_populate_rows (some c) t? a).1 = SQLITE_MISUSE := by
  simp [db_populate_rows, h]

theorem db_free_columns_c_colnames (s : context_td) :
    (db_free_columns_c s).current_colnames = none := by
  unfold db_free_columns_c
  split
  next h => simpa using h
  next h => rfl

theorem db_free_columns_c_db (s : context_td) :
    (db_free_columns_c s).db = s.db := by
  unfold db_free_columns_c
  split <;> rfl

theorem tails_any_isEmpty (ts : List Char) :
    (ts.tails.any fun x => x.isEmpty) = true := by
  induction ts with
  | nil => rfl
  | cons c cs ih =>
    rw [List.tails_cons]
    simp only [List.any_cons, ih, Bool.or_true]

/-- Any text beginning with the seven characters `sqlite_` matches
the LIKE pattern `sqlite_%`. -/
theorem like_reserved (rest : List Char) :
    likeChars ("sqlite_%".data) ("sqlite_".data ++ rest) = true := by
  show likeChars ['s', 'q', 'l', 'i', 't', 'e', '_', '%']
      ('s' :: 'q' :: 'l' :: 'i' :: 't' :: 'e' :: '_' :: rest) = true
  simp [likeChars, lowerAscii, tails_any_isEmpty]

theorem sqlLike_of_reserved (n : String)
    (h : "sqlite_".data.isPrefixOf n.data = true) :
    sqlLike "sqlite_%" n = true := by
  obtain ⟨rest, hrest⟩ := List.isPrefixOf_iff_prefix.mp h
  unfold sqlLike
  rw [← hrest]
  exact like_reserved rest

theorem db_fill_table_list_live (s : context_td) (d : Database)
    (hdb : s.db = some (Conn.live d)) (hts : s.tables_store.isSome = true) :
    db_fill_table_list (some s) =
      (SQLITE_OK, some { s with tables_store := some (tableListQuery d) }) := by
  have hn : s.tables_store.isNone = false := by
    cases hc : s.tables_store
    · rw [hc] at hts
      cases hts
    · rfl
  simp [db_fill_table_list, hdb, hn]

theorem tableListQuery_mem (d : Database) (n : String) :
    n ∈ tableListQuery d ↔
      n ∈ d.tables.map Table.name ∧ sqlLike "sqlite_%" n = false := by
  unfold tableListQuery
  rw [(List.perm_insertionSort _ _).mem_iff, List.mem_filter]
  simp [Bool.not_eq_true']

theorem selectRowidAllText_eq (table : String) :
    selectRowidAllText table =
      "SELECT rowid, * FROM \"" ++ table ++ "\" LIMIT 100;" := by
  unfold selectRowidAllText
  simp only [String.append_assoc]
  congr 1

theorem db_apply_update_cell_misuse_of_colnames_none (c : context_td)
    (h : c.current_colnames = none) (colidx : Int) (r t : String)
    (a2 : AllocOracle) :
    db_apply_update_cell (some c) colidx r t a2 =
      CResult.ok (SQLITE_MISUSE, some c, []) := by
  cases hdb : c.db <;> cases htn : c.current_tablename <;>
    simp [db_apply_update_cell, h, hdb, htn]

/-! ## Claims -/

/-- C1: the claim says every column index that does not address a
valid real column of the current table (negative or beyond the stored
column count) makes `db_apply_update_cell` return a Misuse error and
perform no update.  The code has no bounds check: db.c:265 reads
`s->current_colnames[colidx]` directly, so such an index is an
out-of-bounds array access — undefined behavior, with no guaranteed
`SQLITE_MISUSE` and no guarantee that nothing is updated.  Evaluated
here on a session whose stored column array has three entries, at
`colidx = 3` and at `colidx = -1`. -/
theorem update_cell_invalid_colidx_is_ub :
    db_apply_update_cell (some ctxLive) 3 "1" "z" allocAll = CResult.ub ∧
    db_apply_update_cell (some ctxLive) (-1) "1" "z" allocAll = CResult.ub := by
  exact ⟨by decide, by decide⟩

/-- C8: with an active connection and current-table state present,
`db_apply_update_cell` with `colidx = 0` (the row-identity
pseudo-column) returns `SQLITE_OK`, prepares no statement (empty
engine-event trace), and returns the session — including the stored
data behind the connection — unchanged. -/
theorem update_cell_colidx_zero_noop (s : context_td) (conn : Conn)
    (tn : String) (arr : List (Option String)) (r t : String) (a : AllocOracle)
    (hdb : s.db = some conn) (htn : s.current_tablename = some tn)
    (hcn : s.current_colnames = some arr) :
    db_apply_update_cell (some s) 0 r t a =
      CResult.ok (SQLITE_OK, some s, []) := by
  simp [db_apply_update_cell, hdb, htn, hcn]

/-- Witness for C8 on the concrete live session. -/
theorem update_cell_colidx_zero_noop_witness :
    db_apply_update_cell (some ctxLive) 0 "1" "z" allocAll =
      CResult.ok (SQLITE_OK, some ctxLive, []) :=
  update_cell_colidx_zero_noop ctxLive (Conn.live dbT) "t"
    [some "rowid", some "a", some "b"] "1" "z" allocAll rfl rfl rfl

/-- C9: after a successful `db_open`, a `db_close` leaves a session
whose connection handle is null; a second `db_close` is a no-op; and
both `db_fill_table_list` and `db_populate_rows` on that session fail
with `SQLITE_MISUSE`. -/
theorem close_after_open_blocks_operations (s : context_td) (fs : FileSys)
    (p : String) (_hopen : (db_open (some s) fs p).1 = SQLITE_OK) :
    ∃ c, db_close (db_open (some s) fs p).2.1 = some c ∧ c.db = none ∧
      db_close (some c) = some c ∧
      (db_fill_table_list (some c)).1 = SQLITE_MISUSE ∧
      (∀ t? a, (db_populate_rows (some c) t? a).1 = SQLITE_MISUSE) := by
  obtain ⟨s2, hs2⟩ : ∃ s2, (db_open (some s) fs p).2.1 = some s2 := by
    unfold db_open
    exact ⟨_, rfl⟩
  rw [hs2]
  by_cases hdb : s2.db.isSome
  · refine ⟨{ s2 with db := none }, by simp [db_close, hdb], rfl, ?_, ?_, ?_⟩
    · exact db_close_of_db_none _ rfl
    · exact db_fill_table_list_misuse_of_db_none _ rfl
    · exact fun t? a => db_populate_rows_misuse_of_db_none _ rfl t? a
  · have hnone : s2.db = none := Option.not_isSome_iff_eq_none.mp hdb
    refine ⟨s2, by simp [db_close, hdb], hnone, ?_, ?_, ?_⟩
    · exact db_close_of_db_none _ hnone
    · exact db_fill_table_list_misuse_of_db_none _ hnone
    · exact fun t? a => db_populate_rows_misuse_of_db_none _ hnone t? a

/-- Witness for C9: open a fresh database at a writable location. -/
theorem close_after_open_blocks_operations_witness :
    ∃ c, db_close (db_open (some ctxNoDb) fsRW "new.db").2.1 = some c ∧
      c.db = none ∧ db_close (some c) = some c ∧
      (db_fill_table_list (some c)).1 = SQLITE_MISUSE ∧
      (∀ t? a, (db_populate_rows (some c) t? a).1 = SQLITE_MISUSE) :=
  close_after_open_blocks_operations ctxNoDb fsRW "new.db" (by decide)

/-- C10: whenever `db_populate_rows` or `db_apply_update_cell` fails
its precondition checks (null context, no connection, missing view,
null table name, missing current-table state), it returns
`SQLITE_MISUSE` with the session returned exactly as given — all the
checks precede every mutation, and no engine event is emitted. -/
theorem misuse_guards_preserve_state (s : context_td) (t? : Option String)
    (colidx : Int) (r t : String) (a : AllocOracle) :
    db_populate_rows none t? a = (SQLITE_MISUSE, none) ∧
    (s.db = none ∨ s.rows_view = none ∨ t? = none →
      db_populate_rows (some s) t? a = (SQLITE_MISUSE, some s)) ∧
    db_apply_update_cell none colidx r t a =
      CResult.ok (SQLITE_MISUSE, none, []) ∧
    (s.db = none ∨ s.current_tablename = none ∨ s.current_colnames = none →
      db_apply_update_cell (some s) colidx r t a =
        CResult.ok (SQLITE_MISUSE, some s, [])) := by
  refine ⟨rfl, ?_, rfl, ?_⟩
  · rintro (h | h | h)
    · simp [db_populate_rows, h]
    · simp [db_populate_rows, h]
    · subst h
      simp only [db_populate_rows]
      split
      · rfl
      · rfl
  · rintro (h | h | h) <;>
      cases hdb : s.db <;> cases htn : s.current_tablename <;>
      cases hcn : s.current_colnames <;>
      simp_all [db_apply_update_cell]

/-- Witness for C10 on the zeroed session. -/
theorem misuse_guards_preserve_state_witness :
    db_populate_rows (some ctxNoDb) (some "t") allocAll =
      (SQLITE_MISUSE, some ctxNoDb) ∧
    db_apply_update_cell (some ctxNoDb) 1 "1" "z" allocAll =
      CResult.ok (SQLITE_MISUSE, some ctxNoDb, []) :=
  ⟨(misuse_guards_preserve_state ctxNoDb (some "t") 1 "1" "z" allocAll).2.1
      (Or.inl rfl),
   (misuse_guards_preserve_state ctxNoDb (some "t") 1 "1" "z" allocAll).2.2.2
      (Or.inl rfl)⟩

/-- C2 counterexample: on a read-only location with no file at the
path, `db_open` fails (`SQLITE_CANTOPEN`) yet the context's handle is
the engine's non-null error object, not null — the repository's own
`ui.c` relies on exactly this, reading `sqlite3_errmsg(s->db)` and
calling `db_close(s)` after a failed `db_open`. -/
theorem open_failure_nonnull_handle_cex :
    (db_open (some ctxNoDb) fsRO "missing.db").1 ≠ SQLITE_OK ∧
    (db_open (some ctxNoDb) fsRO "missing.db").2.1 =
      some { ctxNoDb with db := some Conn.errorHandle } := by
  exact ⟨by decide, by decide⟩

/-- C2 amended: after a failed `db_open` the session retains no live
connection — the prior connection was closed and cleared first, and
the handle afterwards is either null or the engine's error object
(which callers must still pass to `db_close`), never an open
database. -/
theorem db_open_failure_no_live_connection (s : context_td) (fs : FileSys)
    (p : String) (hfail : (db_open (some s) fs p).1 ≠ SQLITE_OK) :
    ∃ s2, (db_open (some s) fs p).2.1 = some s2 ∧
      (s2.db = none ∨ s2.db = some Conn.errorHandle) := by
  unfold db_open sqlite3_open_model at hfail ⊢
  cases hl : fs.lookupFile p with
  | some fc =>
    cases fc <;> simp_all [SQLITE_OK]
  | none =>
    by_cases hw : fs.writable = true
    · simp_all [SQLITE_OK]
    · simp only [hl, Bool.not_eq_true] at hfail ⊢
      rw [Bool.not_eq_true] at hw
      simp only [hw, if_false]
      exact ⟨_, rfl, Or.inr rfl⟩

/-- Witness for the C2 amendment. -/
theorem db_open_failure_no_live_connection_witness :
    ∃ s2, (db_open (some ctxNoDb) fsRO "missing.db").2.1 = some s2 ∧
      (s2.db = none ∨ s2.db = some Conn.errorHandle) :=
  db_open_failure_no_live_connection ctxNoDb fsRO "missing.db" (by decide)

/-- C3 counterexample: plain `sqlite3_open` runs in READWRITE|CREATE
mode, so opening a path that names no existing file at a writable
location SUCCEEDS, creating a fresh empty database — it does not
return an engine error, and a live connection is active afterward.
(The validator `db_is_sqlite`, which opens read-only without CREATE,
is what rejects missing paths; `db_open` itself does not.) -/
theorem open_missing_path_creates_db_cex :
    fsRW.lookupFile "new.db" = none ∧
    (db_open (some ctxNoDb) fsRW "new.db").1 = SQLITE_OK ∧
    (db_open (some ctxNoDb) fsRW "new.db").2.1.bind context_td.db =
      some (Conn.live emptyDb) := by
  exact ⟨rfl, by decide, by decide⟩

/-- C3 amended: for a path naming no existing file, `db_open`
succeeds when the location is writable — creating an empty database
on disk and leaving a live connection in the session — and only when
the file cannot be created does it fail, leaving the engine's
non-null error handle (not an absent connection) in the context. -/
theorem db_open_missing_file (s : context_td) (fs : FileSys) (p : String)
    (hmiss : fs.lookupFile p = none) :
    (fs.writable = true →
      (db_open (some s) fs p).1 = SQLITE_OK ∧
      (db_open (some s) fs p).2.1.bind context_td.db =
        some (Conn.live emptyDb) ∧
      (db_open (some s) fs p).2.2.lookupFile p =
        some (FileContent.validDb emptyDb)) ∧
    (fs.writable = false →
      (db_open (some s) fs p).1 = SQLITE_CANTOPEN ∧
      (db_open (some s) fs p).2.1.bind context_td.db =
        some Conn.errorHandle) := by
  unfold db_open sqlite3_open_model
  rw [hmiss]
  constructor
  · intro hw
    simp [hw, FileSys.lookupFile, List.find?]
  · intro hw
    simp [hw]

/-- Witness for the C3 amendment at a writable location. -/
theorem db_open_missing_file_witness :
    (db_open (some ctxNoDb) fsRW "new.db").1 = SQLITE_OK ∧
    (db_open (some ctxNoDb) fsRW "new.db").2.1.bind context_td.db =
      some (Conn.live emptyDb) :=
  ⟨((db_open_missing_file ctxNoDb fsRW "new.db" rfl).1 rfl).1,
   ((db_open_missing_file ctxNoDb fsRW "new.db" rfl).1 rfl).2.1⟩

/-- C4 counterexample: `db_populate_rows` records the NEW table name
(db.c:181) before any failure point, so after a prepare failure
(unknown table `missing`) the current table name is `some "missing"`
— not cleared; and after a `calloc` failure the column count holds
the new table's count (3), not zero.  The claim's "current table
name, column names, and column count are all cleared" is false. -/
theorem load_table_failure_keeps_state_cex :
    (db_populate_rows (some ctxLive) (some "missing") allocAll).1 =
      SQLITE_ERROR ∧
    (db_populate_rows (some ctxLive) (some "missing") allocAll).2.bind
      context_td.current_tablename = some "missing" ∧
    (db_populate_rows (some ctxLive) (some "t") aNoCalloc).1 = SQLITE_NOMEM ∧
    (db_populate_rows (some ctxLive) (some "t") aNoCalloc).2.map
      context_td.current_ncols = some 3 := by
  exact ⟨by decide, by decide, by decide, by decide⟩

/-- C4 amended: when `db_populate_rows` fails after discarding the
prior materialized state (any non-OK, non-precondition-Misuse
return), the column-name array is cleared, so no usable current-table
state remains and every subsequent `db_apply_update_cell` fails with
`SQLITE_MISUSE`; but the requested table name stays recorded as the
current table (when its copy allocation succeeds), and the stored
column count is not always reset. -/
theorem db_populate_rows_failure_state (s : context_td) (table : String)
    (a : AllocOracle)
    (hfail : (db_populate_rows (some s) (some table) a).1 ≠ SQLITE_OK)
    (hnm : (db_populate_rows (some s) (some table) a).1 ≠ SQLITE_MISUSE) :
    ∃ s2, (db_populate_rows (some s) (some table) a).2 = some s2 ∧
      s2.current_colnames = none ∧
      s2.current_tablename = (if a.tablename_ok then some table else none) ∧
      (∀ colidx r t a2, db_apply_update_cell (some s2) colidx r t a2 =
        CResult.ok (SQLITE_MISUSE, some s2, [])) := by
  revert hfail hnm
  simp only [db_populate_rows]
  split
  · intro hfail hnm
    exact absurd rfl hnm
  · cases hsql : s_make_select_rowid_all a table with
    | none =>
      intro hfail hnm
      refine ⟨_, rfl, db_free_columns_c_colnames s, rfl, ?_⟩
      intro colidx r t a2
      apply db_apply_update_cell_misuse_of_colnames_none
      exact db_free_columns_c_colnames s
    | some q =>
      rw [db_free_columns_c_db]
      dsimp only
      cases hdb : s.db with
      | none =>
        intro hfail hnm
        exact absurd rfl hnm
      | some conn =>
        cases conn with
        | live d =>
          dsimp only
          cases hlt : d.lookupTable table with
          | none =>
            intro hfail hnm
            refine ⟨_, rfl, db_free_columns_c_colnames s, rfl, ?_⟩
            intro colidx r t a2
            apply db_apply_update_cell_misuse_of_colnames_none
            exact db_free_columns_c_colnames s
          | some tb =>
            by_cases hca : a.colnames_ok = true
            · rw [hca]
              intro hfail hnm
              exact absurd rfl hfail
            · rw [Bool.not_eq_true] at hca
              rw [hca]
              intro hfail hnm
              refine ⟨_, rfl, db_free_columns_c_colnames s, rfl, ?_⟩
              intro colidx r t a2
              apply db_apply_update_cell_misuse_of_colnames_none
              exact db_free_columns_c_colnames s
        | notadb =>
          intro hfail hnm
          refine ⟨_, rfl, db_free_columns_c_colnames s, rfl, ?_⟩
          intro colidx r t a2
          apply db_apply_update_cell_misuse_of_colnames_none
          exact db_free_columns_c_colnames s
        | errorHandle =>
          intro hfail hnm
          refine ⟨_, rfl, db_free_columns_c_colnames s, rfl, ?_⟩
          intro colidx r t a2
          apply db_apply_update_cell_misuse_of_colnames_none
          exact db_free_columns_c_colnames s

/-- C5: two runs of `db_apply_update_cell` on the same session state,
same column index and same allocation behavior, differing only in
`new_text` and `rowid_text`, pass exactly the same statement texts to
`sqlite3_prepare_v2`: the user-supplied values reach the engine only
through `sqlite3_bind_text` parameters, never inside the SQL string. -/
theorem update_cell_sql_independent_of_values (s? : Option context_td)
    (colidx : Int) (a : AllocOracle) (r1 t1 r2 t2 : String) :
    preparedSqls (db_apply_update_cell s? colidx r1 t1 a) =
      preparedSqls (db_apply_update_cell s? colidx r2 t2 a) := by
  cases s? with
  | none => rfl
  | some s =>
    simp only [db_apply_update_cell]
    cases hdb : s.db with
    | none =>
      cases htn : s.current_tablename <;> cases hcn : s.current_colnames <;> rfl
    | some conn =>
      cases htn : s.current_tablename with
      | none => cases hcn : s.current_colnames <;> rfl
      | some tablename =>
        cases hcn : s.current_colnames with
        | none => rfl
        | some colarr =>
          dsimp only
          repeat' first
          | rfl
          | split

/-- C6: the fetch statement built for a table load is exactly
`SELECT rowid, * FROM "<table>" LIMIT 100;` for every table name
(including names long enough to force the heap-allocation path of
`s_make_select_rowid_all`), or NULL on allocation failure; and every
successfully populated row model holds at most `SQL_QUERY_MAX_LIMIT`
(100) rows. -/
theorem select_statement_exact_and_bounded :
    (∀ a table, s_make_select_rowid_all a table =
        some ("SELECT rowid, * FROM \"" ++ table ++ "\" LIMIT 100;") ∨
      s_make_select_rowid_all a table = none) ∧
    (∀ s table a, (db_populate_rows (some s) (some table) a).1 = SQLITE_OK →
      ∃ s2 rv m, (db_populate_rows (some s) (some table) a).2 = some s2 ∧
        s2.rows_view = some rv ∧ rv.model = some m ∧
        m.length ≤ SQL_QUERY_MAX_LIMIT.toNat) := by
  constructor
  · intro a table
    unfold s_make_select_rowid_all
    dsimp only
    split
    · split
      · exact Or.inl (by rw [selectRowidAllText_eq])
      · exact Or.inr rfl
    · split
      · exact Or.inl (by rw [selectRowidAllText_eq])
      · exact Or.inr rfl
  · intro s table a
    simp only [db_populate_rows]
    split
    · intro h
      simp [SQLITE_OK, SQLITE_ERROR, SQLITE_NOMEM, SQLITE_MISUSE,
        SQLITE_NOTADB] at h
    · cases hsql : s_make_select_rowid_all a table with
      | none =>
        intro h
        simp [SQLITE_OK, SQLITE_ERROR, SQLITE_NOMEM, SQLITE_MISUSE,
          SQLITE_NOTADB] at h
      | some q =>
        rw [db_free_columns_c_db]
        dsimp only
        cases hdb : s.db with
        | none =>
          intro h
          simp [SQLITE_OK, SQLITE_ERROR, SQLITE_NOMEM, SQLITE_MISUSE,
            SQLITE_NOTADB] at h
        | some conn =>
          cases conn with
          | live d =>
            dsimp only
            cases hlt : d.lookupTable table with
            | none =>
              intro h
              simp [SQLITE_OK, SQLITE_ERROR, SQLITE_NOMEM, SQLITE_MISUSE,
                SQLITE_NOTADB] at h
            | some tb =>
              by_cases hca : a.colnames_ok = true
              · rw [hca]
                intro _h
                refine ⟨_, _, _, rfl, rfl, rfl, ?_⟩
                simp [List.length_take]
              · rw [Bool.not_eq_true] at hca
                rw [hca]
                intro h
                simp [SQLITE_OK, SQLITE_ERROR, SQLITE_NOMEM, SQLITE_MISUSE,
                  SQLITE_NOTADB] at h
          | notadb =>
            intro h
            simp [SQLITE_OK, SQLITE_ERROR, SQLITE_NOMEM, SQLITE_MISUSE,
              SQLITE_NOTADB] at h
          | errorHandle =>
            intro h
            simp [SQLITE_OK, SQLITE_ERROR, SQLITE_NOMEM, SQLITE_MISUSE,
              SQLITE_NOTADB] at h

/-- Witness for C6: loading table `t` of the example database yields
a two-row model, within the bound. -/
theorem select_statement_exact_and_bounded_witness :
    (s_make_select_rowid_all allocAll "t" =
        some ("SELECT rowid, * FROM \"" ++ "t" ++ "\" LIMIT 100;") ∨
      s_make_select_rowid_all allocAll "t" = none) ∧
    (∃ s2 rv m, (db_populate_rows (some ctxLive) (some "t") allocAll).2 =
        some s2 ∧
      s2.rows_view = some rv ∧ rv.model = some m ∧
      m.length ≤ SQL_QUERY_MAX_LIMIT.toNat) :=
  ⟨select_statement_exact_and_bounded.1 allocAll "t",
   select_statement_exact_and_bounded.2 ctxLive "t" allocAll (by decide)⟩

/-- C7 counterexample: the code filters with `name NOT LIKE
'sqlite_%'`, where LIKE's `_` matches ANY single character — so it
excludes more than the names bearing the literal `sqlite_` prefix.
`sqlitez` is creatable in SQLite (the reserved-name check compares
exactly the first seven characters against `sqlite_`), does not bear
the reserved prefix, yet `db_fill_table_list` omits it: the output is
not exactly the catalog entries lacking the prefix. -/
theorem table_list_omits_unreserved_name_cex :
    (db_fill_table_list (some ctxSz)).1 = SQLITE_OK ∧
    (db_fill_table_list (some ctxSz)).2.bind context_td.tables_store =
      some [] ∧
    dbSz.tables.map Table.name = ["sqlitez"] ∧
    "sqlite_".data.isPrefixOf "sqlitez".data = false := by
  exact ⟨by decide, by decide, by decide, by decide⟩

/-- C7 amended: for a live connection and a catalog with distinct
table names, the sequence produced by `db_fill_table_list` is
strictly lexicographically increasing and contains no
`sqlite_`-prefixed name; it contains exactly the catalog entries of
kind "table" NOT matching the SQL LIKE pattern `sqlite_%` — a
case-insensitive match in which `_` matches any single character —
which excludes every `sqlite_`-prefixed name but also any other name
of at least seven characters whose first six are `sqlite` (in any
case). -/
theorem table_list_sorted_and_filtered (s : context_td) (d : Database)
    (hdb : s.db = some (Conn.live d)) (hts : s.tables_store.isSome = true)
    (hnd : (d.tables.map Table.name).Nodup) :
    (db_fill_table_list (some s)).1 = SQLITE_OK ∧
    (db_fill_table_list (some s)).2 =
      some { s with tables_store := some (tableListQuery d) } ∧
    (tableListQuery d).Sorted (· < ·) ∧
    (∀ n ∈ tableListQuery d, "sqlite_".data.isPrefixOf n.data = false) ∧
    (∀ n, n ∈ tableListQuery d ↔
      n ∈ d.tables.map Table.name ∧ sqlLike "sqlite_%" n = false) := by
  have hfill := db_fill_table_list_live s d hdb hts
  refine ⟨by rw [hfill], by rw [hfill], ?_, ?_, tableListQuery_mem d⟩
  · have hle : (tableListQuery d).Sorted (· ≤ ·) :=
      List.sorted_insertionSort _ _
    have hnodup : (tableListQuery d).Nodup :=
      (List.perm_insertionSort _ _).nodup_iff.mpr (hnd.filter _)
    exact hle.lt_of_le hnodup
  · intro n hn
    cases hq : "sqlite_".data.isPrefixOf n.data
    · rfl
    · have hlike := sqlLike_of_reserved n hq
      have hf := ((tableListQuery_mem d n).mp hn).2
      rw [hlike] at hf
      cases hf

/-- Witness for the C7 amendment on a catalog with tables `b`, `a`
and the internal `sqlite_seq`. -/
theorem table_list_sorted_and_filtered_witness :
    (db_fill_table_list (some ctxW)).1 = SQLITE_OK ∧
    (db_fill_table_list (some ctxW)).2 =
      some { ctxW with tables_store := some (tableListQuery dbW) } ∧
    (tableListQuery dbW).Sorted (· < ·) ∧
    (∀ n ∈ tableListQuery dbW, "sqlite_".data.isPrefixOf n.data = false) ∧
    (∀ n, n ∈ tableListQuery dbW ↔
      n ∈ dbW.tables.map Table.name ∧ sqlLike "sqlite_%" n = false) :=
  table_list_sorted_and_filtered ctxW dbW rfl rfl (by decide)

/-- Witness for the C4 amendment: load of a table absent from the
database fails with `SQLITE_ERROR` after the prior state was
discarded. -/
theorem db_populate_rows_failure_state_witness :
    ∃ s2, (db_populate_rows (some ctxLive) (some "missing") allocAll).2 =
        some s2 ∧
      s2.current_colnames = none ∧
      s2.current_tablename =
        (if allocAll.tablename_ok then some "missing" else none) ∧
      (∀ colidx r t a2, db_apply_update_cell (some s2) colidx r t a2 =
        CResult.ok (SQLITE_MISUSE, some s2, [])) :=
  db_populate_rows_failure_state ctxLive "missing" allocAll
    (by decide) (by decide)

end SqliteView
